import Mathlib

/-!
Verification of the B2B lead-capture system (scoring engine, deduplication
cache, pipeline controller) against its specification.

The definitions below are a shallow embedding of the Python sources:
  * `src/src/models.py`    — data model (`Lead`, `SocialProfiles`, `GoogleMapsData`)
  * `config/settings.py`   — weight table, classification table, priority list
  * `src/src/scoring.py`   — `LeadScorer`
  * `src/src/cache.py`     — `LeadCache`
  * `src/src/pipeline.py`  — `LeadPipeline.run`

Modelling conventions:
  * Python `datetime` values are modelled at day granularity as integers
    (`(now - last_post).days` becomes `now - last_post` on `Int`);
  * Python floats that only ever face threshold comparisons (`rating`) are
    modelled as rationals;
  * Python truthiness of optional fields is modelled explicitly
    (`None`, `""`, `0`, `0.0` and `{}` are falsy);
  * scores are `Nat`: every weight in the configuration is a non-negative
    integer and the rubric only ever adds, so `max(0, ...)` in the source is
    an identity which the embedding keeps in shape (`max 0 (min 100 s)`);
  * presentation-only `Lead` fields (address, coordinates, timestamps,
    free-text notes) are omitted: no scoring, cache or pipeline branch
    reads them.
-/

namespace LeadSystem

/-! ## Data model — `src/src/models.py` -/

/-- `LeadClassification` enum from `models.py`. -/
inductive LeadClassification where
  | HOT
  | WARM
  | COLD
  | LOW
  deriving DecidableEq, Repr

/-- `SocialProfiles` from `models.py`; `instagram_last_post` is the post day
number, compared against the scoring day (`now`). -/
structure SocialProfiles where
  instagram : Option String := none
  instagram_followers : Option Nat := none
  instagram_posts : Option Nat := none
  instagram_last_post : Option Int := none
  linkedin : Option String := none
  linkedin_company_id : Option String := none
  linkedin_employees : Option Nat := none
  deriving DecidableEq, Repr

/-- `GoogleMapsData` from `models.py`; `hours` is an association list
standing for the Python dict. -/
structure GoogleMapsData where
  place_id : Option String := none
  rating : Option ℚ := none
  num_reviews : Option Nat := none
  hours : Option (List (String × String)) := none
  deriving DecidableEq, Repr

/-- `Lead` from `models.py` (fields read by scoring, cache or pipeline). -/
structure Lead where
  nome : String
  categoria : String
  telefone : Option String := none
  email : Option String := none
  cidade : String := "Belo Horizonte"
  site : Option String := none
  site_ativo : Bool := false
  site_https : Bool := false
  social : SocialProfiles := {}
  google_maps : GoogleMapsData := {}
  score : Nat := 0
  classificacao : LeadClassification := LeadClassification.LOW
  score_calculated : Bool := false
  synced_to_airtable : Bool := false
  deriving DecidableEq, Repr

/-! ## Python truthiness helpers -/

/-- Truthiness of `Optional[str]`: `None` and `""` are falsy. -/
def pyTruthyStr : Option String → Bool
  | none => false
  | some s => !s.isEmpty

/-- Truthiness of `Optional[int]`: `None` and `0` are falsy. -/
def pyTruthyNat : Option Nat → Bool
  | none => false
  | some n => n != 0

/-- Truthiness of `Optional[float]`: `None` and `0.0` are falsy. -/
def pyTruthyRat : Option ℚ → Bool
  | none => false
  | some q => q != 0

/-- Truthiness of `Optional[dict]`: `None` and `{}` are falsy. -/
def pyTruthyDict : Option (List (String × String)) → Bool
  | none => false
  | some l => !l.isEmpty

/-- Python `str.lower()` (character-wise, as executable list recursion so
the kernel can evaluate it on literals). -/
def pyLower (s : String) : String :=
  String.mk (s.data.map Char.toLower)

/-- The whitespace class stripped by Python `str.strip()`. -/
def isPySpace (c : Char) : Bool :=
  c == ' ' || c == '\t' || c == '\n' || c == '\r'

/-- Python `str.strip()`: drop leading and trailing whitespace. -/
def pyStrip (s : String) : String :=
  String.mk (((s.data.dropWhile isPySpace).reverse.dropWhile isPySpace).reverse)

/-- Character-list helper for the Python substring test. -/
def charsContain : List Char → List Char → Bool
  | hay, needle =>
    match hay with
    | [] => needle.isEmpty
    | _ :: t => needle.isPrefixOf hay || charsContain t needle

/-- Python substring test `needle in hay` on strings. -/
def strContains (hay needle : String) : Bool :=
  charsContain hay.toList needle.toList

/-! ## Configuration — `config/settings.py` -/

/-- `SCORING_WEIGHTS` dict; in the scorer every lookup supplies a default
equal to the configured value, so the table is total. -/
structure Weights where
  tem_telefone : Nat := 10
  tem_email : Nat := 10
  tem_site : Nat := 10
  site_com_https : Nat := 5
  site_ativo : Nat := 5
  tem_instagram : Nat := 10
  instagram_ativo : Nat := 5
  tem_linkedin : Nat := 10
  linkedin_company_page : Nat := 5
  rating_alto : Nat := 10
  muitas_reviews : Nat := 10
  horario_funcionamento : Nat := 5
  categoria_relevante : Nat := 5
  deriving DecidableEq, Repr

/-- The concrete `SCORING_WEIGHTS` value of `settings.py`. -/
def SCORING_WEIGHTS : Weights := {}

/-- `LEAD_CLASSIFICATION` dict, in insertion order (Python dicts iterate in
insertion order): name, inclusive minimum, inclusive maximum. -/
def LEAD_CLASSIFICATION : List (String × Nat × Nat) :=
  [("hot", 80, 100), ("warm", 60, 79), ("cold", 40, 59), ("low", 0, 39)]

/-- `PRIORITY_CATEGORIES` from `settings.py`. -/
def PRIORITY_CATEGORIES : List String :=
  ["clinica medica", "clinica odontologica", "escritorio advocacia",
   "escritorio contabilidade", "imobiliaria"]

/-- `PRIORITY_BONUS` from `settings.py`. -/
def PRIORITY_BONUS : Nat := 5

/-! ## Scoring engine — `src/src/scoring.py` -/

/-- The membership test
`lead.categoria.lower() in [c.lower() for c in PRIORITY_CATEGORIES]`,
used both in `calculate_score` and in `_score_business_quality`. -/
def is_priority_category (categoria : String) : Bool :=
  (PRIORITY_CATEGORIES.map pyLower).contains (pyLower categoria)

/-- `LeadScorer._score_contact_data` (score component only; the `details`
dict is diagnostic output that no caller reads). -/
def score_contact_data (w : Weights) (lead : Lead) : Nat :=
  let score := 0
  let score := if pyTruthyStr lead.telefone then score + w.tem_telefone else score
  let score := if pyTruthyStr lead.email then score + w.tem_email else score
  let score :=
    if pyTruthyStr lead.site then
      let score := score + w.tem_site
      let score := if lead.site_https then score + w.site_com_https else score
      if lead.site_ativo then score + w.site_ativo else score
    else score
  score

/-- `LeadScorer._score_digital_presence` (score component only).
`now` is the day number of `datetime.now()`; a `datetime` is always truthy
in Python, so the activity branch splits purely on `Option`. -/
def score_digital_presence (now : Int) (w : Weights) (lead : Lead) : Nat :=
  let social := lead.social
  let score := 0
  let score :=
    if pyTruthyStr social.instagram then
      let score := score + w.tem_instagram
      match social.instagram_last_post with
      | some last_post =>
        let days_ago := now - last_post
        if days_ago ≤ 30 then score + w.instagram_ativo else score
      | none => score + w.instagram_ativo / 2
    else score
  let score :=
    match social.linkedin with
    | none => score
    | some lk =>
      if lk.isEmpty then score
      else
        let score := score + w.tem_linkedin
        if pyTruthyStr social.linkedin_company_id || strContains (pyLower lk) "company" then
          score + w.linkedin_company_page
        else score
  score

/-- `LeadScorer._score_business_quality` (score component only). -/
def score_business_quality (w : Weights) (lead : Lead) : Nat :=
  let g := lead.google_maps
  let score := 0
  let score :=
    match g.rating with
    | none => score
    | some r =>
      if r == 0 then score
      else if r ≥ 4 then score + w.rating_alto
      else if r ≥ (7 : ℚ) / 2 then score + w.rating_alto / 2
      else score
  let score :=
    match g.num_reviews with
    | none => score
    | some n =>
      if n == 0 then score
      else if n ≥ 50 then score + w.muitas_reviews
      else if n ≥ 20 then score + w.muitas_reviews / 2
      else score
  let score := if pyTruthyDict g.hours then score + w.horario_funcionamento else score
  let score :=
    if is_priority_category lead.categoria then score + w.categoria_relevante else score
  score

/-- The string-to-enum conversion `LeadClassification(classification)`;
the four table names are the four enum values. -/
def classificationOfValue : String → Option LeadClassification
  | "hot" => some LeadClassification.HOT
  | "warm" => some LeadClassification.WARM
  | "cold" => some LeadClassification.COLD
  | "low" => some LeadClassification.LOW
  | _ => none

/-- `LeadScorer._classify_lead`: first table entry whose inclusive range
contains the score, falling back to `LOW`. -/
def classify_lead (score : Nat) : LeadClassification :=
  match LEAD_CLASSIFICATION.find? (fun e => e.2.1 ≤ score && score ≤ e.2.2) with
  | some e => (classificationOfValue e.1).getD LeadClassification.LOW
  | none => LeadClassification.LOW

/-- The raw additive score of `LeadScorer.calculate_score` before clamping:
the three block scores plus the flat priority bonus. -/
def calculate_score_raw (now : Int) (w : Weights) (lead : Lead) : Nat :=
  let score := 0
  let score := score + score_contact_data w lead
  let score := score + score_digital_presence now w lead
  let score := score + score_business_quality w lead
  if is_priority_category lead.categoria then score + PRIORITY_BONUS else score

/-- `LeadScorer.calculate_score`: clamp to `[0, 100]`, classify, and update
the lead in place. -/
def calculate_score (now : Int) (w : Weights) (lead : Lead) : Lead :=
  let score := max 0 (min 100 (calculate_score_raw now w lead))
  { lead with
      score := score
      classificacao := classify_lead score
      score_calculated := true }

/-- The comparison used by `scored.sort(key=lambda x: x.score, reverse=True)`:
earlier element has the larger-or-equal score. -/
def scoreGe (a b : Lead) : Prop := b.score ≤ a.score

instance : DecidableRel scoreGe := fun a b => Nat.decLe b.score a.score

instance : IsTotal Lead scoreGe :=
  ⟨fun a b => (Nat.le_total b.score a.score).elim Or.inl Or.inr⟩

instance : IsTrans Lead scoreGe :=
  ⟨fun _ _ _ hab hbc => Nat.le_trans hbc hab⟩

/-- `LeadScorer.score_leads`: score each lead, then sort by descending score.
`calculate_score` is total, so the per-lead `try/except` of the source never
fires; Python's `list.sort` is stable, which `insertionSort` with `scoreGe`
reproduces exactly (an element is inserted before the first element whose
score is `≤` its own, i.e. after every earlier element with an equal score). -/
def score_leads (now : Int) (w : Weights) (leads : List Lead) : List Lead :=
  List.insertionSort scoreGe (leads.map (calculate_score now w))

/-! ## Deduplication cache — `src/src/cache.py`

The cache key in the source is `md5(f"{nome}|{cidade}".encode()).hexdigest()[:16]`
on the normalized pair. The hash is a function of the pre-hash string, so all
reasoning about key equality transfers; the embedding uses the pre-hash string
itself as the key (hash collisions between distinct fingerprints are outside
the model). File persistence (`_save_cache`/`_load_cache`) is I/O glue and is
not modelled; the state below is the in-memory `_cache` dict. -/

/-- The snapshot stored per fingerprint by `LeadCache.add`/`add_many`
(`added_at`/`updated_at` at day granularity). -/
structure CacheEntry where
  nome : String
  categoria : String
  cidade : String
  telefone : Option String
  email : Option String
  site : Option String
  instagram : Option String
  linkedin : Option String
  score : Nat
  classificacao : LeadClassification
  added_at : Int
  updated_at : Int
  deriving DecidableEq, Repr

/-- The in-memory cache: the `leads` dict (insertion-ordered association
list, at most one entry per key) and the `stats` counters. -/
structure CacheState where
  leads : List (String × CacheEntry) := []
  total_processed : Nat := 0
  duplicates_skipped : Nat := 0
  deriving DecidableEq, Repr

namespace LeadCache

/-- `LeadCache._generate_key`, up to the final md5 step (see section header):
lowercase and trim name and city, join with `|`. -/
def generate_key (lead : Lead) : String :=
  let nome := pyStrip (pyLower lead.nome)
  let cidade := pyStrip (pyLower lead.cidade)
  nome ++ "|" ++ cidade

/-- `LeadCache.exists`: key membership in the `leads` dict. -/
def «exists» (st : CacheState) (lead : Lead) : Bool :=
  (st.leads.lookup (generate_key lead)).isSome

/-- `LeadCache.get`. -/
def get (st : CacheState) (lead : Lead) : Option CacheEntry :=
  st.leads.lookup (generate_key lead)

/-- The snapshot dict literal built inside `add`/`add_many`. -/
def mkEntry (now : Int) (lead : Lead) : CacheEntry :=
  { nome := lead.nome
    categoria := lead.categoria
    cidade := lead.cidade
    telefone := lead.telefone
    email := lead.email
    site := lead.site
    instagram := lead.social.instagram
    linkedin := lead.social.linkedin
    score := lead.score
    classificacao := lead.classificacao
    added_at := now
    updated_at := now }

/-- Python dict assignment `d[k] = v`: overwrite in place if the key is
present, else append (insertion order preserved). -/
def dictInsert (k : String) (v : CacheEntry) :
    List (String × CacheEntry) → List (String × CacheEntry)
  | [] => [(k, v)]
  | p :: t => if p.1 == k then (k, v) :: t else p :: dictInsert k v t

/-- `LeadCache.add`: upsert the snapshot and bump `total_processed`. -/
def add (now : Int) (st : CacheState) (lead : Lead) : CacheState :=
  { st with
      leads := dictInsert (generate_key lead) (mkEntry now lead) st.leads
      total_processed := st.total_processed + 1 }

/-- `LeadCache.add_many`: the same upsert per lead, one save at the end. -/
def add_many (now : Int) (st : CacheState) (leads : List Lead) : CacheState :=
  leads.foldl (add now) st

/-- The `for` loop of `LeadCache.filter_new`: accumulate the new leads in
input order and count the duplicates. -/
def filter_new_loop (st : CacheState) : List Lead → List Lead × Nat
  | [] => ([], 0)
  | l :: ls =>
    let r := filter_new_loop st ls
    if «exists» st l then (r.1, r.2 + 1) else (l :: r.1, r.2)

/-- `LeadCache.filter_new`: return the leads whose fingerprint is absent, add
the duplicate count to `duplicates_skipped`. -/
def filter_new (st : CacheState) (leads : List Lead) : List Lead × CacheState :=
  let r := filter_new_loop st leads
  (r.1, { st with duplicates_skipped := st.duplicates_skipped + r.2 })

end LeadCache

/-! ## Pipeline controller — `src/src/pipeline.py`

`LeadPipeline.run` is embedded for a fresh run (`resume=False`; checkpoint
persistence is file I/O that does not alter the data flow of a single run).
External collaborators (scraper, website analyzer, social extractor, Hunter,
Airtable sync) are parameters of the environment, as the spec specifies them
only through their interfaces. The embedding additionally returns the list
of collaborator calls in execution order, so ordering claims can be stated.
Per-stage statistics entries of the `results` dict are diagnostic and are
not modelled; the summary keeps the `error` and `total_leads` fields. -/

/-- One collaborator call of `LeadPipeline.run`, in source order. -/
inductive StageEvent where
  | testConnection
  | search
  | websiteAnalysis
  | socialExtraction
  | hunterEnrichment
  | scoring
  | airtableSync
  | cacheCommit
  | exportExcel
  deriving DecidableEq, Repr

/-- The pipeline's configuration and collaborators: `airtableConfigured`
models `self.airtable is not None`, `airtableTestOk` the result of
`test_connection()`, `searchResult` the value returned by
`scraper.search_all_categories(...)`, and the three functions the
lead-collection transformations of the enrichment and sync collaborators
(`sync_leads` also sets each lead's `synced_to_airtable` flag). -/
structure PipelineEnv where
  now : Int
  airtableConfigured : Bool
  airtableTestOk : Bool
  hunterConfigured : Bool
  cacheConfigured : Bool
  searchResult : List Lead
  analyze_leads : List Lead → List Lead
  enrich_leads : List Lead → List Lead
  hunter_enrich : List Lead → List Lead
  sync_leads : List Lead → List Lead

/-- The `results` summary of `LeadPipeline.run` (tracked fields). -/
structure RunSummary where
  error : Option String := none
  total_leads : Option Nat := none
  deriving DecidableEq, Repr

/-- Stages 2–7 of `LeadPipeline.run` (website analysis, social extraction,
optional Hunter enrichment, scoring, optional Airtable sync, cache commit,
Excel export), entered only when the search stage produced surviving leads.
The trace lists the collaborator calls in the order the source makes them. -/
def run_after_search (env : PipelineEnv) (st : CacheState) (leads0 : List Lead)
    (trace0 : List StageEvent) : RunSummary × List StageEvent × CacheState :=
  let leads1 := env.analyze_leads leads0
  let leads2 := env.enrich_leads leads1
  let leads3 := if env.hunterConfigured then env.hunter_enrich leads2 else leads2
  let leads4 := score_leads env.now SCORING_WEIGHTS leads3
  let leads5 := if env.airtableConfigured then env.sync_leads leads4 else leads4
  let st1 :=
    if env.cacheConfigured then
      if env.airtableConfigured then
        LeadCache.add_many env.now st (leads5.filter (fun l => l.synced_to_airtable))
      else
        LeadCache.add_many env.now st leads5
    else st
  let trace :=
    trace0 ++ [StageEvent.websiteAnalysis, StageEvent.socialExtraction]
      ++ (if env.hunterConfigured then [StageEvent.hunterEnrichment] else [])
      ++ [StageEvent.scoring]
      ++ (if env.airtableConfigured then [StageEvent.airtableSync] else [])
      ++ (if env.cacheConfigured then [StageEvent.cacheCommit] else [])
      ++ [StageEvent.exportExcel]
  ({ error := none, total_leads := some leads5.length }, trace, st1)

/-- `LeadPipeline.run` (fresh run): Airtable pre-flight check first, then the
search stage with its two early returns (no leads found; all leads already
cached), then the remaining stages. -/
def run (env : PipelineEnv) (st : CacheState) : RunSummary × List StageEvent × CacheState :=
  if env.airtableConfigured && !env.airtableTestOk then
    ({ error := some "Airtable permission denied (403)", total_leads := none },
     [StageEvent.testConnection], st)
  else
    let trace := if env.airtableConfigured then [StageEvent.testConnection] else []
    let leads := env.searchResult
    let trace := trace ++ [StageEvent.search]
    if leads.isEmpty then
      ({ error := none, total_leads := none }, trace, st)
    else if env.cacheConfigured then
      let r := LeadCache.filter_new st leads
      if r.1.isEmpty then
        ({ error := none, total_leads := some 0 }, trace, r.2)
      else
        run_after_search env r.2 r.1 trace
    else
      run_after_search env st leads trace

/-! ## Sanity examples (evaluated by the kernel) -/

example : is_priority_category "Imobiliaria" = true := by decide
example : is_priority_category "restaurante" = false := by decide
example : strContains "linkedin.com/company/x" "company" = true := by decide
example : pyStrip (pyLower "  Clinica X ") = "clinica x" := by decide

/-! ## Concrete inputs used by counterexamples and witnesses -/

/-- A lead with mandatory fields only and a priority category. -/
def c1Lead : Lead :=
  { nome := "Imobiliaria Exemplo", categoria := "imobiliaria" }

/-- A lead with mandatory fields only and a non-priority category. -/
def c2Lead : Lead :=
  { nome := "Restaurante Sabor", categoria := "restaurante" }

/-- A lead with an Instagram profile and no activity data. -/
def c5Lead : Lead :=
  { nome := "Academia Forte", categoria := "academia",
    social := { instagram := some "https://instagram.com/forte" } }

/-- A lead with a priority category. -/
def c6Lead : Lead :=
  { nome := "Clinica Boa", categoria := "clinica medica" }

/-- A lead as first cached. -/
def c7Lead : Lead :=
  { nome := "Clinica Premium", categoria := "clinica medica",
    cidade := "Belo Horizonte" }

/-- The same business as `c7Lead`, differing only in letter case and
leading/trailing whitespace of name and city. -/
def c7LeadVariant : Lead :=
  { nome := "  CLINICA PREMIUM ", categoria := "clinica medica",
    cidade := "belo horizonte  " }

/-- Two uncached leads with the same normalized name and city. -/
def c10Lead1 : Lead :=
  { nome := "Padaria Central ", categoria := "restaurante" }

/-- See `c10Lead1`. -/
def c10Lead2 : Lead :=
  { nome := "  PADARIA CENTRAL", categoria := "restaurante" }

/-- A pipeline environment whose Airtable pre-flight check fails. -/
def c8Env : PipelineEnv :=
  { now := 0, airtableConfigured := true, airtableTestOk := false,
    hunterConfigured := false, cacheConfigured := true, searchResult := [],
    analyze_leads := id, enrich_leads := id, hunter_enrich := id, sync_leads := id }

/-- A pipeline environment whose search stage finds nothing. -/
def c9Env : PipelineEnv :=
  { now := 0, airtableConfigured := true, airtableTestOk := true,
    hunterConfigured := false, cacheConfigured := true, searchResult := [],
    analyze_leads := id, enrich_leads := id, hunter_enrich := id, sync_leads := id }

/-! ## Helper lemmas -/

/-- Closed form of the classification table lookup. -/
lemma classify_lead_eq (s : Nat) :
    classify_lead s =
      if 80 ≤ s ∧ s ≤ 100 then LeadClassification.HOT
      else if 60 ≤ s ∧ s ≤ 79 then LeadClassification.WARM
      else if 40 ≤ s ∧ s ≤ 59 then LeadClassification.COLD
      else LeadClassification.LOW := by
  unfold classify_lead LEAD_CLASSIFICATION
  by_cases h1 : 80 ≤ s ∧ s ≤ 100
  · rw [if_pos h1]
    have b1 : (decide (80 ≤ s) && decide (s ≤ 100)) = true := by simp; omega
    simp [List.find?_cons, b1, classificationOfValue]
  · rw [if_neg h1]
    have b1 : (decide (80 ≤ s) && decide (s ≤ 100)) = false := by simp; omega
    by_cases h2 : 60 ≤ s ∧ s ≤ 79
    · rw [if_pos h2]
      have b2 : (decide (60 ≤ s) && decide (s ≤ 79)) = true := by simp; omega
      simp [List.find?_cons, b1, b2, classificationOfValue]
    · rw [if_neg h2]
      have b2 : (decide (60 ≤ s) && decide (s ≤ 79)) = false := by simp; omega
      by_cases h3 : 40 ≤ s ∧ s ≤ 59
      · rw [if_pos h3]
        have b3 : (decide (40 ≤ s) && decide (s ≤ 59)) = true := by simp; omega
        simp [List.find?_cons, b1, b2, b3, classificationOfValue]
      · rw [if_neg h3]
        have b3 : (decide (40 ≤ s) && decide (s ≤ 59)) = false := by simp; omega
        by_cases h4 : s ≤ 39
        · have b4 : decide (s ≤ 39) = true := by simp [h4]
          simp [List.find?_cons, b1, b2, b3, b4, classificationOfValue]
        · have b4 : decide (s ≤ 39) = false := by simp [h4]
          simp [List.find?_cons, List.find?_nil, b1, b2, b3, b4]

namespace LeadCache

/-- The loop of `filter_new` keeps exactly the absent leads, in order, and
counts the present ones. -/
lemma filter_new_loop_spec (st : CacheState) (leads : List Lead) :
    filter_new_loop st leads
      = (leads.filter (fun l => !«exists» st l),
         (leads.filter (fun l => «exists» st l)).length) := by
  induction leads with
  | nil => rfl
  | cons l ls ih =>
    rw [filter_new_loop, ih]
    cases h : «exists» st l <;> simp [h, List.filter_cons]

/-- Looking up the inserted key finds the inserted value. -/
lemma lookup_dictInsert_self (k : String) (v : CacheEntry) :
    ∀ l : List (String × CacheEntry), (dictInsert k v l).lookup k = some v
  | [] => by simp [dictInsert, List.lookup]
  | (a, b) :: t => by
    by_cases hk : a = k
    · subst hk
      simp [dictInsert, List.lookup]
    · have h1 : ((a, b).1 == k) = false := by simp [hk]
      have h2 : (k == a) = false := by simp [Ne.symm hk]
      simp only [dictInsert, h1, Bool.false_eq_true, if_false]
      rw [List.lookup, h2]
      exact lookup_dictInsert_self k v t

/-- Leads with the same normalized name and city get the same cache key. -/
lemma generate_key_congr (lead lead' : Lead)
    (hn : pyStrip (pyLower lead'.nome) = pyStrip (pyLower lead.nome))
    (hc : pyStrip (pyLower lead'.cidade) = pyStrip (pyLower lead.cidade)) :
    generate_key lead' = generate_key lead := by
  unfold generate_key
  rw [hn, hc]

end LeadCache

/-- Filtering by one score value commutes with ordered insertion: the
inserted lead lands in front of the equal-scored leads it was inserted
into (which entered the sort later), and skipped leads have strictly
greater scores. -/
lemma filter_orderedInsert (s : Nat) (x : Lead) (l : List Lead) :
    (l.orderedInsert scoreGe x).filter (fun a => a.score == s)
      = if x.score == s then x :: l.filter (fun a => a.score == s)
        else l.filter (fun a => a.score == s) := by
  induction l with
  | nil =>
    cases h : (x.score == s) <;> simp [List.orderedInsert, List.filter_cons, h]
  | cons b t ih =>
    rw [List.orderedInsert]
    by_cases hr : scoreGe x b
    · rw [if_pos hr]
      cases hx : (x.score == s) <;> simp [List.filter_cons, hx]
    · rw [if_neg hr]
      by_cases hb : (b.score == s) = true
      · have hx : ¬ ((x.score == s) = true) := by
          simp only [beq_iff_eq] at hb ⊢
          unfold scoreGe at hr
          omega
        simp [List.filter_cons, hb, ih, hx]
      · simp [List.filter_cons, hb, ih]

/-- Stability of the insertion sort used by `score_leads`: the sublist of
leads holding any fixed score is unchanged. -/
lemma filter_insertionSort (s : Nat) (l : List Lead) :
    (List.insertionSort scoreGe l).filter (fun a => a.score == s)
      = l.filter (fun a => a.score == s) := by
  induction l with
  | nil => rfl
  | cons x t ih =>
    rw [List.insertionSort, filter_orderedInsert, ih]
    cases hx : (x.score == s) <;> simp [List.filter_cons, hx]

/-- The later pipeline stages only append events to the incoming trace. -/
lemma run_after_search_trace (env : PipelineEnv) (st : CacheState)
    (leads0 : List Lead) (trace0 : List StageEvent) :
    ∃ t, (run_after_search env st leads0 trace0).2.1 = trace0 ++ t := by
  refine ⟨[StageEvent.websiteAnalysis, StageEvent.socialExtraction]
      ++ (if env.hunterConfigured then [StageEvent.hunterEnrichment] else [])
      ++ [StageEvent.scoring]
      ++ (if env.airtableConfigured then [StageEvent.airtableSync] else [])
      ++ (if env.cacheConfigured then [StageEvent.cacheCommit] else [])
      ++ [StageEvent.exportExcel], ?_⟩
  simp only [run_after_search, List.append_assoc]

/-- The first event of the incoming trace stays the first event overall. -/
lemma run_after_search_head (env : PipelineEnv) (st : CacheState)
    (leads0 : List Lead) (e : StageEvent) (rest : List StageEvent) :
    (run_after_search env st leads0 (e :: rest)).2.1.head? = some e := by
  obtain ⟨t, ht⟩ := run_after_search_trace env st leads0 (e :: rest)
  simp [ht]

/-! ## Claims -/

/-- C1 (counterexample): `c1Lead` has every optional field unpopulated and a
priority category, yet `calculate_score` gives it score 10, not 0 — the
category-fit credit (+5) and the priority bonus (+5) fire on the mandatory
category field alone. -/
theorem C1_counterexample :
    c1Lead.telefone = none ∧ c1Lead.email = none ∧ c1Lead.site = none ∧
    c1Lead.social.instagram = none ∧ c1Lead.social.linkedin = none ∧
    c1Lead.google_maps.rating = none ∧ c1Lead.google_maps.num_reviews = none ∧
    c1Lead.google_maps.hours = none ∧
    c1Lead.site_https = false ∧ c1Lead.site_ativo = false ∧
    is_priority_category c1Lead.categoria = true ∧
    (calculate_score 0 SCORING_WEIGHTS c1Lead).score = 10 := by
  refine ⟨rfl, rfl, rfl, rfl, rfl, rfl, rfl, rfl, rfl, rfl, ?_, ?_⟩ <;> decide

/-- C1 (amended): for every lead whose optional fields are all unpopulated,
`calculate_score` assigns score 0 when the category is not in the priority
list and score 10 when it is (category-fit credit plus priority bonus); the
classification is `low` in both cases. -/
theorem C1_empty_lead (now : Int) (lead : Lead)
    (h1 : lead.telefone = none) (h2 : lead.email = none) (h3 : lead.site = none)
    (h4 : lead.social.instagram = none) (h5 : lead.social.linkedin = none)
    (h6 : lead.google_maps.rating = none) (h7 : lead.google_maps.num_reviews = none)
    (h8 : lead.google_maps.hours = none)
    (h9 : lead.site_https = false) (h10 : lead.site_ativo = false) :
    (calculate_score now SCORING_WEIGHTS lead).score
        = (if is_priority_category lead.categoria then 10 else 0) ∧
    (calculate_score now SCORING_WEIGHTS lead).classificacao = LeadClassification.LOW := by
  have hraw : calculate_score_raw now SCORING_WEIGHTS lead
      = (if is_priority_category lead.categoria then 10 else 0) := by
    simp only [calculate_score_raw, score_contact_data, score_digital_presence,
      score_business_quality, h1, h2, h3, h4, h5, h6, h7, h8]
    simp [pyTruthyStr, pyTruthyDict, SCORING_WEIGHTS, PRIORITY_BONUS]
    split_ifs <;> rfl
  have hscore : (calculate_score now SCORING_WEIGHTS lead).score
      = (if is_priority_category lead.categoria then 10 else 0) := by
    show max 0 (min 100 (calculate_score_raw now SCORING_WEIGHTS lead))
        = (if is_priority_category lead.categoria then 10 else 0)
    rw [hraw]
    split_ifs <;> rfl
  refine ⟨hscore, ?_⟩
  have hc : (calculate_score now SCORING_WEIGHTS lead).classificacao
      = classify_lead (calculate_score now SCORING_WEIGHTS lead).score := rfl
  rw [hc, hscore]
  split_ifs <;> rw [classify_lead_eq] <;> simp

/-- Witness for C1 at the concrete lead `c1Lead`. -/
theorem C1_empty_lead_witness :
    (calculate_score 0 SCORING_WEIGHTS c1Lead).score
        = (if is_priority_category c1Lead.categoria then 10 else 0) ∧
    (calculate_score 0 SCORING_WEIGHTS c1Lead).classificacao = LeadClassification.LOW :=
  C1_empty_lead 0 c1Lead rfl rfl rfl rfl rfl rfl rfl rfl rfl rfl

/-- C2: every scored lead's final score is clamped to `[0, 100]` (scores are
non-negative by construction), its classification is the table lookup of
that score, the four inclusive ranges hot `[80,100]`, warm `[60,79]`, cold
`[40,59]`, low `[0,39]` classify as named and cover `[0,100]` with every
clamped score in exactly one range, and any score outside every range falls
back to `low`. -/
theorem C2_clamp_and_classification (now : Int) (w : Weights) (lead : Lead) :
    ((calculate_score now w lead).score ≤ 100) ∧
    ((calculate_score now w lead).classificacao
      = classify_lead (calculate_score now w lead).score) ∧
    (∀ s : Nat,
      (80 ≤ s ∧ s ≤ 100 → classify_lead s = LeadClassification.HOT) ∧
      (60 ≤ s ∧ s ≤ 79 → classify_lead s = LeadClassification.WARM) ∧
      (40 ≤ s ∧ s ≤ 59 → classify_lead s = LeadClassification.COLD) ∧
      (s ≤ 39 → classify_lead s = LeadClassification.LOW) ∧
      (100 < s → classify_lead s = LeadClassification.LOW)) ∧
    (∀ s : Nat, s ≤ 100 →
      (LEAD_CLASSIFICATION.filter (fun e => e.2.1 ≤ s && s ≤ e.2.2)).length = 1) := by
  refine ⟨?_, ?_, ?_, ?_⟩
  · show max 0 (min 100 (calculate_score_raw now w lead)) ≤ 100
    omega
  · rfl
  · intro s
    refine ⟨?_, ?_, ?_, ?_, ?_⟩ <;> intro h <;> rw [classify_lead_eq] <;>
      split_ifs <;> first | rfl | omega
  · intro s hs
    interval_cases s <;> decide

/-- Witness for C2 at concrete inputs (score bound at `c2Lead`; table lookup
and partition at scores 85 and 101). -/
theorem C2_clamp_and_classification_witness :
    (calculate_score 0 SCORING_WEIGHTS c2Lead).score ≤ 100 ∧
    classify_lead 85 = LeadClassification.HOT ∧
    classify_lead 101 = LeadClassification.LOW ∧
    (LEAD_CLASSIFICATION.filter (fun e => e.2.1 ≤ 85 && 85 ≤ e.2.2)).length = 1 :=
  ⟨(C2_clamp_and_classification 0 SCORING_WEIGHTS c2Lead).1,
   ((C2_clamp_and_classification 0 SCORING_WEIGHTS c2Lead).2.2.1 85).1 (by omega),
   (((C2_clamp_and_classification 0 SCORING_WEIGHTS c2Lead).2.2.1 101).2.2.2.2) (by omega),
   (C2_clamp_and_classification 0 SCORING_WEIGHTS c2Lead).2.2.2 85 (by omega)⟩

/-- C3: `filter_new` returns exactly the input leads whose fingerprint is
absent from the cache, unchanged and in input order, adds the number of
present-fingerprint leads to `duplicates_skipped`, and leaves the cached
entries and `total_processed` untouched. -/
theorem C3_filter_new_spec (st : CacheState) (leads : List Lead) :
    (LeadCache.filter_new st leads).1
        = leads.filter (fun l => !LeadCache.«exists» st l) ∧
    (LeadCache.filter_new st leads).2.duplicates_skipped
        = st.duplicates_skipped
          + (leads.filter (fun l => LeadCache.«exists» st l)).length ∧
    (LeadCache.filter_new st leads).2.leads = st.leads ∧
    (LeadCache.filter_new st leads).2.total_processed = st.total_processed := by
  unfold LeadCache.filter_new
  rw [LeadCache.filter_new_loop_spec]
  exact ⟨rfl, rfl, rfl, rfl⟩

/-- C4: the output of `score_leads` is sorted by descending score, and for
every score value the sublist of leads holding it is exactly the scored
input sublist, in input order (stable sort). -/
theorem C4_sorted_stable (now : Int) (w : Weights) (leads : List Lead) :
    (score_leads now w leads).Sorted scoreGe ∧
    (∀ s : Nat,
      (score_leads now w leads).filter (fun l => l.score == s)
        = (leads.map (calculate_score now w)).filter (fun l => l.score == s)) := by
  constructor
  · exact List.sorted_insertionSort scoreGe _
  · intro s
    exact filter_insertionSort s _

/-- C5: with an Instagram profile present, the digital-presence block adds
(relative to the same lead without the profile) the full presence weight
plus the active weight when the last post is at most 30 days old, only the
presence weight when it is older, and the presence weight plus
`floor(active weight / 2)` when the activity is unknown — `+2` with the
default weight 5. -/
theorem C5_instagram_activity (now : Int) (w : Weights) (lead : Lead)
    (hi : pyTruthyStr lead.social.instagram = true) :
    (∀ t : Int, lead.social.instagram_last_post = some t → now - t ≤ 30 →
      score_digital_presence now w lead
        = score_digital_presence now w
            { lead with social := { lead.social with instagram := none } }
          + w.tem_instagram + w.instagram_ativo) ∧
    (∀ t : Int, lead.social.instagram_last_post = some t → 30 < now - t →
      score_digital_presence now w lead
        = score_digital_presence now w
            { lead with social := { lead.social with instagram := none } }
          + w.tem_instagram) ∧
    (lead.social.instagram_last_post = none →
      score_digital_presence now w lead
        = score_digital_presence now w
            { lead with social := { lead.social with instagram := none } }
          + w.tem_instagram + w.instagram_ativo / 2) ∧
    SCORING_WEIGHTS.instagram_ativo / 2 = 2 ∧ SCORING_WEIGHTS.instagram_ativo = 5 := by
  refine ⟨?_, ?_, ?_, rfl, rfl⟩
  · intro t hpost hdays
    simp only [score_digital_presence, hpost, hi]
    cases hL : lead.social.linkedin <;>
      simp [hL, hdays, pyTruthyStr] <;> split_ifs <;> omega
  · intro t hpost hdays
    have hdays2 : ¬ (now - t ≤ 30) := by omega
    simp only [score_digital_presence, hpost, hi]
    cases hL : lead.social.linkedin <;>
      simp [hL, hdays2, pyTruthyStr] <;> split_ifs <;> omega
  · intro hpost
    simp only [score_digital_presence, hpost, hi]
    cases hL : lead.social.linkedin <;>
      simp [hL, pyTruthyStr] <;> split_ifs <;> omega

/-- Witness for C5 at `c5Lead` (unknown activity: half credit `+2`). -/
theorem C5_instagram_activity_witness :
    score_digital_presence 0 SCORING_WEIGHTS c5Lead
      = score_digital_presence 0 SCORING_WEIGHTS
          { c5Lead with social := { c5Lead.social with instagram := none } }
        + SCORING_WEIGHTS.tem_instagram + SCORING_WEIGHTS.instagram_ativo / 2 :=
  (C5_instagram_activity 0 SCORING_WEIGHTS c5Lead (by decide)).2.2.1 rfl

/-- C6: a lead with a priority category collects both the quality-block
category-fit credit and the flat priority bonus: its raw (pre-clamp) score
is exactly `categoria_relevante + PRIORITY_BONUS = 5 + 5 = 10` points above
the otherwise identical lead with a non-priority category. -/
theorem C6_priority_double_credit (now : Int) (lead : Lead) (other : String)
    (hp : is_priority_category lead.categoria = true)
    (hn : is_priority_category other = false) :
    calculate_score_raw now SCORING_WEIGHTS lead
      = calculate_score_raw now SCORING_WEIGHTS { lead with categoria := other }
        + SCORING_WEIGHTS.categoria_relevante + PRIORITY_BONUS ∧
    SCORING_WEIGHTS.categoria_relevante = 5 ∧ PRIORITY_BONUS = 5 := by
  refine ⟨?_, rfl, rfl⟩
  have hcontact : score_contact_data SCORING_WEIGHTS { lead with categoria := other }
      = score_contact_data SCORING_WEIGHTS lead := rfl
  have hdigital : score_digital_presence now SCORING_WEIGHTS { lead with categoria := other }
      = score_digital_presence now SCORING_WEIGHTS lead := rfl
  have hquality : score_business_quality SCORING_WEIGHTS lead
      = score_business_quality SCORING_WEIGHTS { lead with categoria := other }
        + SCORING_WEIGHTS.categoria_relevante := by
    simp only [score_business_quality, hp, hn]
    simp
  simp only [calculate_score_raw, hp, hn, hcontact, hdigital, hquality]
  simp
  omega

/-- Witness for C6: `c6Lead` (priority) against the category `restaurante`. -/
theorem C6_priority_double_credit_witness :
    calculate_score_raw 0 SCORING_WEIGHTS c6Lead
      = calculate_score_raw 0 SCORING_WEIGHTS { c6Lead with categoria := "restaurante" }
        + SCORING_WEIGHTS.categoria_relevante + PRIORITY_BONUS ∧
    SCORING_WEIGHTS.categoria_relevante = 5 ∧ PRIORITY_BONUS = 5 :=
  C6_priority_double_credit 0 c6Lead "restaurante" (by decide) (by decide)

/-- C7: after `add lead`, `exists` answers true for any lead whose name and
city agree with `lead` up to letter case and leading/trailing whitespace
(equal normalized fingerprints). -/
theorem C7_add_exists_roundtrip (now : Int) (st : CacheState) (lead lead' : Lead)
    (hn : pyStrip (pyLower lead'.nome) = pyStrip (pyLower lead.nome))
    (hc : pyStrip (pyLower lead'.cidade) = pyStrip (pyLower lead.cidade)) :
    LeadCache.«exists» (LeadCache.add now st lead) lead' = true := by
  unfold LeadCache.«exists» LeadCache.add
  rw [LeadCache.generate_key_congr lead lead' hn hc]
  simp [LeadCache.lookup_dictInsert_self]

/-- Witness for C7: cache `c7Lead`, query its case/whitespace variant. -/
theorem C7_add_exists_roundtrip_witness :
    LeadCache.«exists» (LeadCache.add 0 {} c7Lead) c7LeadVariant = true :=
  C7_add_exists_roundtrip 0 {} c7Lead c7LeadVariant (by decide) (by decide)

/-- C8: with an external-sync collaborator configured, the pre-flight
connection check is the first collaborator call of the run (before any
search), and if it fails the run returns at once with the error recorded in
the summary and no other stage executed. -/
theorem C8_preflight (env : PipelineEnv) (st : CacheState)
    (hA : env.airtableConfigured = true) :
    ((run env st).2.1.head? = some StageEvent.testConnection) ∧
    (env.airtableTestOk = false →
      (run env st).1.error = some "Airtable permission denied (403)" ∧
      (run env st).2.1 = [StageEvent.testConnection]) := by
  cases hT : env.airtableTestOk
  · unfold run
    simp [hA, hT]
  · unfold run
    simp only [hA, hT, Bool.not_true, Bool.and_false, Bool.false_eq_true, if_false,
      eq_self_iff_true, if_true, List.singleton_append]
    constructor
    · split_ifs with h1 h2 <;> simp [run_after_search_head]
    · intro h
      exact absurd h (by decide)

/-- Witness for C8 at the failing-pre-flight environment `c8Env`. -/
theorem C8_preflight_witness :
    ((run c8Env {}).2.1.head? = some StageEvent.testConnection) ∧
    (c8Env.airtableTestOk = false →
      (run c8Env {}).1.error = some "Airtable permission denied (403)" ∧
      (run c8Env {}).2.1 = [StageEvent.testConnection]) :=
  C8_preflight c8Env {} rfl

/-- C9: when the search stage returns zero leads the run stops right after
the search with `total_leads` unset and no error; when the cache filter
leaves zero leads the run stops there with `total_leads = 0` and no error —
in both cases no stage beyond the search executes. -/
theorem C9_empty_outcomes (env : PipelineEnv) (st : CacheState)
    (hok : env.airtableConfigured = true → env.airtableTestOk = true) :
    (env.searchResult = [] →
      (run env st).1.total_leads = none ∧ (run env st).1.error = none ∧
      (run env st).2.1
        = (if env.airtableConfigured then [StageEvent.testConnection] else [])
            ++ [StageEvent.search]) ∧
    (env.cacheConfigured = true → (LeadCache.filter_new st env.searchResult).1 = [] →
      env.searchResult ≠ [] →
      (run env st).1.total_leads = some 0 ∧ (run env st).1.error = none ∧
      (run env st).2.1
        = (if env.airtableConfigured then [StageEvent.testConnection] else [])
            ++ [StageEvent.search]) := by
  have hcond : (env.airtableConfigured && !env.airtableTestOk) = false := by
    cases hA : env.airtableConfigured
    · simp
    · simp [hok hA]
  unfold run
  simp only [hcond, Bool.false_eq_true, if_false]
  constructor
  · intro hs
    simp [hs]
  · intro hc hf hne
    have hne2 : env.searchResult.isEmpty = false := by
      cases hr : env.searchResult
      · exact absurd hr hne
      · simp [hr]
    simp [hc, hf, hne2]

/-- Witness for C9 at the empty-search environment `c9Env`. -/
theorem C9_empty_outcomes_witness :
    (run c9Env {}).1.total_leads = none ∧ (run c9Env {}).1.error = none ∧
    (run c9Env {}).2.1
      = (if c9Env.airtableConfigured then [StageEvent.testConnection] else [])
          ++ [StageEvent.search] :=
  (C9_empty_outcomes c9Env {} (fun _ => rfl)).1 rfl

/-- C10: `filter_new` consults only the cache as it was at call entry and
never inserts: a batch of two uncached leads sharing one fingerprint comes
back whole, with no duplicate counted and the cache contents unchanged. -/
theorem C10_within_batch_not_deduplicated (st : CacheState) (l1 l2 : Lead)
    (hk : LeadCache.generate_key l1 = LeadCache.generate_key l2)
    (h1 : LeadCache.«exists» st l1 = false) :
    (LeadCache.filter_new st [l1, l2]).1 = [l1, l2] ∧
    (LeadCache.filter_new st [l1, l2]).2.duplicates_skipped = st.duplicates_skipped ∧
    (LeadCache.filter_new st [l1, l2]).2.leads = st.leads ∧
    (LeadCache.filter_new st [l1, l2]).2.total_processed = st.total_processed := by
  have h2 : LeadCache.«exists» st l2 = false := by
    unfold LeadCache.«exists» at h1 ⊢
    rw [← hk]
    exact h1
  unfold LeadCache.filter_new
  simp [LeadCache.filter_new_loop, h1, h2]

/-- Witness for C10: two same-fingerprint leads against the empty cache. -/
theorem C10_within_batch_not_deduplicated_witness :
    (LeadCache.filter_new {} [c10Lead1, c10Lead2]).1 = [c10Lead1, c10Lead2] ∧
    (LeadCache.filter_new {} [c10Lead1, c10Lead2]).2.duplicates_skipped
        = CacheState.duplicates_skipped {} ∧
    (LeadCache.filter_new {} [c10Lead1, c10Lead2]).2.leads = CacheState.leads {} ∧
    (LeadCache.filter_new {} [c10Lead1, c10Lead2]).2.total_processed
        = CacheState.total_processed {} :=
  C10_within_batch_not_deduplicated {} c10Lead1 c10Lead2 (by decide) (by decide)

end LeadSystem
